import Mathlib

/-!
# Verification of the geo-profile generator (`script.py`)

Shallow embedding of the profile-synthesis core of the repository
`geo-profile-generator`.  Python's process-wide `random` module and the
`Faker` library are external dependencies of the program; they are modelled
here as explicit deterministic PRNG states (an LCG stands in for the
Mersenne twister: only the interface facts — bounded `randint`, membership
of `choice`, determinism from the seed — are ever used).  Floats are
modelled as rationals with exact round-half-to-even two-decimal rounding,
Python's `round(x, 2)`.
-/

namespace GeoProfile

/-- Model of the state of Python's process-wide `random` module
(a deterministic PRNG state; the Mersenne twister is modelled by an LCG). -/
structure RandState where
  s : ℕ
deriving DecidableEq, Repr

/-- One raw draw of the modelled PRNG: returns a value in `[0, 2^31)`
and the advanced state. -/
def randNext (g : RandState) : ℕ × RandState :=
  let s' := (g.s * 1103515245 + 12345) % 2147483648
  (s', ⟨s'⟩)

/-- Model of `random.random()`: a rational in `[0, 1)`. -/
def randomFloat (g : RandState) : ℚ × RandState :=
  let r := randNext g
  ((r.1 : ℚ) / 2147483648, r.2)

/-- Model of `random.randint(a, b)`: an integer in the inclusive range
`[a, b]` (when `a ≤ b`), consuming one draw. -/
def randint (a b : ℤ) (g : RandState) : ℤ × RandState :=
  let r := randNext g
  (a + (r.1 : ℤ) % (b - a + 1), r.2)

/-- Model of `random.choice(l)`: an element of `l` chosen by one draw.
Python raises on an empty sequence; the model returns `dflt` there
(every call site in the program passes a non-empty literal list). -/
def choice {α : Type} (dflt : α) (l : List α) (g : RandState) : α × RandState :=
  let r := randNext g
  (l.getD (r.1 % l.length) dflt, r.2)

/-- Model of `random.seed(seed)`: the seed fully determines the state. -/
def seedRandom (seed : ℕ) : RandState := ⟨seed % 2147483648⟩

/-- Model of the state of the `Faker` instance's own random source
(`Faker` draws from its own stream, separate from the `random` module). -/
structure FakerState where
  s : ℕ
deriving DecidableEq, Repr

/-- One raw draw of the modelled Faker PRNG. -/
def fakerNext (f : FakerState) : ℕ × FakerState :=
  let s' := (f.s * 22695477 + 1) % 2147483648
  (s', ⟨s'⟩)

/-- Model of `Faker.seed(seed)`. -/
def seedFaker (seed : ℕ) : FakerState := ⟨seed % 2147483648⟩

/-- City pool of the modelled `faker.city()` provider (external library
data; the claims never depend on its contents, only on determinism and on
its independence from the `random`-module stream). -/
def fakerCityPool : List String :=
  ["Berlin", "Hamburg", "München", "Leipzig", "Aue", "Pirna",
   "Bad Homburg", "Wolfsburg", "Zossen", "Hoyerswerda"]

/-- Model of `faker.city()`. -/
def fakerCity (f : FakerState) : String × FakerState :=
  let r := fakerNext f
  (fakerCityPool.getD (r.1 % fakerCityPool.length) "Berlin", r.2)

/-- Street-name pool of the modelled `faker.street_name()` provider. -/
def fakerStreetPool : List String :=
  ["Hauptstraße", "Schulstraße", "Gartenstraße", "Bahnhofstraße",
   "Dorfstraße", "Ringstraße", "Lindenstraße", "Bergstraße"]

/-- Model of `faker.street_name()`. -/
def fakerStreetName (f : FakerState) : String × FakerState :=
  let r := fakerNext f
  (fakerStreetPool.getD (r.1 % fakerStreetPool.length) "Hauptstraße", r.2)

/-- Model of `faker.building_number()`: a house number `1..999`. -/
def fakerBuildingNumber (f : FakerState) : String × FakerState :=
  let r := fakerNext f
  (toString (1 + r.1 % 999), r.2)

/-- Zero-pad a number below 100 to two digits (date formatting helper). -/
def pad2 (n : ℕ) : String :=
  if n < 10 then "0" ++ toString n else toString n

/-- Model of `faker.date_of_birth(minimum_age, maximum_age)` followed by
`strftime("%Y-%m-%d")`: an age inside the inclusive range relative to the
current year `today`, with month and day drawn from the Faker stream. -/
def fakerDateOfBirth (today : ℕ) (minAge maxAge : ℕ) (f : FakerState) :
    String × FakerState :=
  let r1 := fakerNext f
  let age := minAge + r1.1 % (maxAge - minAge + 1)
  let r2 := fakerNext r1.2
  let month := 1 + r2.1 % 12
  let r3 := fakerNext r2.2
  let day := 1 + r3.1 % 28
  (toString (today - age) ++ "-" ++ pad2 month ++ "-" ++ pad2 day, r3.2)

/-- Model of `faker.date_time_this_year()` followed by
`strftime("%Y-%m-%d %H:%M:%S")`: a date-time within the current year. -/
def fakerDateTimeThisYear (today : ℕ) (f : FakerState) : String × FakerState :=
  let r1 := fakerNext f
  let month := 1 + r1.1 % 12
  let r2 := fakerNext r1.2
  let day := 1 + r2.1 % 28
  let r3 := fakerNext r2.2
  let hour := r3.1 % 24
  let r4 := fakerNext r3.2
  let minute := r4.1 % 60
  let r5 := fakerNext r4.2
  let second := r5.1 % 60
  (toString today ++ "-" ++ pad2 month ++ "-" ++ pad2 day ++ " " ++
     pad2 hour ++ ":" ++ pad2 minute ++ ":" ++ pad2 second, r5.2)

/-! ## Reference data tables (`GeoProfileGenerator.__init__`) -/

/-- `self.states`: the 16 German states, in source order. -/
def states : List String :=
  ["Baden-Württemberg", "Bayern", "Berlin", "Brandenburg", "Bremen",
   "Hamburg", "Hessen", "Niedersachsen", "Mecklenburg-Vorpommern",
   "Nordrhein-Westfalen", "Rheinland-Pfalz", "Saarland", "Sachsen",
   "Sachsen-Anhalt", "Schleswig-Holstein", "Thüringen"]

/-- A value of the `self.zip_code_ranges` dict: either a pair of integer
bounds, or (for Sachsen) a list of pairs of zero-padded digit strings. -/
inductive ZipEntry : Type
  | intRange (lo hi : ℤ)
  | strRanges (rs : List (String × String))
deriving DecidableEq, Repr

/-- `self.zip_code_ranges`, embedded as the lookup function of the dict
(`dict.get`); `none` models a missing key. -/
def zip_code_ranges (state : String) : Option ZipEntry :=
  if state = "Baden-Württemberg" then some (.intRange 70000 79999)
  else if state = "Bayern" then some (.intRange 80000 99999)
  else if state = "Berlin" then some (.intRange 10000 19999)
  else if state = "Brandenburg" then some (.intRange 14000 14999)
  else if state = "Bremen" then some (.intRange 28000 28999)
  else if state = "Hamburg" then some (.intRange 20000 29999)
  else if state = "Hessen" then some (.intRange 60000 69999)
  else if state = "Niedersachsen" then some (.intRange 26000 29999)
  else if state = "Mecklenburg-Vorpommern" then some (.intRange 17000 17999)
  else if state = "Nordrhein-Westfalen" then some (.intRange 40000 49999)
  else if state = "Rheinland-Pfalz" then some (.intRange 55000 59999)
  else if state = "Saarland" then some (.intRange 66000 66999)
  else if state = "Sachsen" then
    some (.strRanges [("01000", "01999"), ("04000", "04999")])
  else if state = "Sachsen-Anhalt" then some (.intRange 39000 39999)
  else if state = "Schleswig-Holstein" then some (.intRange 24000 25999)
  else if state = "Thüringen" then some (.intRange 99000 99999)
  else none

/-- `self.first_names_male`. -/
def first_names_male : List String :=
  ["Lukas", "Max", "Paul", "Jonas", "Leon", "Felix", "Finn", "Ben", "Moritz",
   "Noah", "Johannes", "Tim", "Julian", "David", "Matthias", "Niklas", "Elias",
   "Alexander", "Tobias", "Samuel", "Lucas", "Jakob", "Fabian", "Andreas",
   "Markus", "Christian", "Stefan", "Simon", "Benjamin", "Daniel", "Michael",
   "Johann", "Mark", "Kai", "Martin", "Jakob", "Julian", "Tom", "Nico",
   "Patrick", "Sebastian", "Bastian", "Hannes", "Matthias", "Rafael", "Georg",
   "Arthur", "Lennard", "Oskar", "Jan", "Maurice", "Timothy"]

/-- `self.first_names_female`. -/
def first_names_female : List String :=
  ["Anna", "Sophie", "Marie", "Emma", "Lena", "Laura", "Mia", "Hannah", "Lina",
   "Sophie", "Lea", "Sarah", "Charlotte", "Clara", "Amelie", "Lilli", "Emily",
   "Nina", "Ella", "Katharina", "Isabella", "Julia", "Lisa", "Franziska",
   "Marlene", "Greta", "Eva", "Luisa", "Paula", "Johanna", "Carla", "Leonie",
   "Lara", "Alina", "Klara", "Victoria", "Elena", "Sina", "Merle", "Maja",
   "Selina", "Antonia", "Tessa", "Nadine", "Isabel", "Vanessa", "Daniela",
   "Verena", "Bettina", "Jana", "Maike", "Melanie"]

/-- `self.last_names`. -/
def last_names : List String :=
  ["Müller", "Schmidt", "Schneider", "Fischer", "Weber", "Meyer", "Wagner",
   "Becker", "Hoffmann", "Schulz", "Bauer", "Koch", "Richter", "Klein",
   "Wolf", "Schröder", "Neumann", "Schwarz", "Zimmermann", "Braun", "Schmitt",
   "Hartmann", "Lange", "Werner", "Krause", "Peters", "Jung", "Roth", "Voigt",
   "Berger", "Mayer", "Fuchs", "Schulte", "Böhm", "Weiss", "Bergmann",
   "Kraus", "Vogel", "Lang", "Ziegler", "Sauer", "Weidner", "Meyerhoff",
   "Weigel", "Weber", "Wirth", "Krämer", "Röder", "Heinrich", "Hahn",
   "Böttcher", "Schulze"]

/-- `self.email_providers`. -/
def email_providers : List String :=
  ["gmx.de", "web.de", "t-online.de", "yahoo.de", "freenet.de", "aol.de",
   "mail.de", "tutanota.de", "hotmail.de", "outlook.de", "1und1.de",
   "posteo.de", "googlemail.com", "mailbox.org", "arcor.de", "ziggo.de",
   "gmx.net", "freemail.de", "scholar.de", "mymail.de", "bluewin.ch",
   "studiemail.de", "uni-mail.de", "gmx.at", "gmx.ch", "email.de",
   "deutschlandemail.de", "planet-interkom.de", "test.de", "versatel.de",
   "gmx.us", "gmx.co.uk", "gmx.fr", "mailplus.de", "citymail.de", "iserv.de",
   "gmx.org", "sapo.de", "mail.ru", "scout24.de", "onlinedeutsch.de",
   "blitzmail.de", "earthlink.net", "easy-mail.de", "eclipso.de",
   "freenetmail.de", "mailzilla.de", "surfmail.de", "gmx.us",
   "altavista.com", "dawnmail.de", "posteo.net"]

/-- `self.city_coords`, embedded as the lookup function of the dict. -/
def city_coords (city : String) : Option (ℚ × ℚ) :=
  if city = "Berlin" then some (52.5200, 13.4050)
  else if city = "Munich" then some (48.1351, 11.5820)
  else if city = "Hamburg" then some (53.5511, 9.9937)
  else if city = "Cologne" then some (50.9375, 6.9603)
  else if city = "Frankfurt" then some (50.1109, 8.6821)
  else if city = "Stuttgart" then some (48.7758, 9.1829)
  else if city = "Düsseldorf" then some (51.2217, 6.7762)
  else if city = "Dortmund" then some (51.5145, 7.4660)
  else if city = "Essen" then some (51.4556, 7.0116)
  else if city = "Leipzig" then some (51.3397, 12.3731)
  else if city = "Bremen" then some (53.0793, 8.8017)
  else if city = "Dresden" then some (51.0504, 13.7373)
  else if city = "Hanover" then some (52.3792, 9.7196)
  else if city = "Nuremberg" then some (49.4521, 11.0767)
  else if city = "Duisburg" then some (51.4344, 6.7623)
  else if city = "Bochum" then some (51.4818, 7.2162)
  else if city = "Wuppertal" then some (51.2562, 7.1500)
  else if city = "Bielefeld" then some (52.0302, 8.5325)
  else if city = "Münster" then some (51.9607, 7.6261)
  else if city = "Mannheim" then some (49.4875, 8.4671)
  else if city = "Karlsruhe" then some (49.0141, 8.4044)
  else if city = "Hannover" then some (52.3792, 9.7196)
  else if city = "Nürnberg" then some (49.4521, 11.0767)
  else none

/-- `self.purchase_items`. -/
def purchase_items : List String :=
  ["Hose", "T-Shirt", "Socken", "Jacke", "Schuhe", "Kleid", "Bluse", "Rock",
   "Pullover", "Jeans", "Shorts", "Mantel", "Anzug", "Mütze", "Schal",
   "Handschuhe", "Unterwäsche", "Badeanzug", "Jogginghose", "Hemd",
   "Polo-Shirt", "Top", "Pyjama", "Bikini", "Weste", "Leggings", "Poncho",
   "Strickjacke", "Overall", "Trainingsanzug", "Stirnband", "Strumpfhose",
   "Sandalen", "Stiefel", "Sneaker", "Pumps", "Slipper", "Cargohose",
   "Blazer", "Cardigan", "Gürtel", "Krawatte", "Fliege", "Latzhose",
   "Trachten", "Dirndl", "Halstuch", "Regenjacke", "Regenhose",
   "Wanderstiefel", "Kapuzenpullover", "Chinos", "Cargo-Shorts",
   "Pufferjacke", "Desert Boots", "Loafers", "Espadrilles", "Flip-Flops",
   "Hausschuhe", "Boxershorts", "Tanktop", "Badehose", "Radlerhose",
   "Sonnenhut", "Haarband", "Klettschuhe", "Schnürschuhe", "Abendkleid",
   "Ballkleid", "Ballerinas", "Mokassins", "Zehensandalen", "Bastschuhe",
   "Segelschuhe", "Wedges", "Plateauschuhe", "Stoffschuhe", "Clogs",
   "Römersandalen", "Kampfstiefel", "Chelseaboots", "Brogues", "Halbschuhe",
   "Oxfordschuhe", "Laufschuhe", "Kletterhosen", "Sport-BH", "Funktionsshirt"]

/-! ## String helpers: Python's `str(int)` and `int(str)` -/

/-- Little-endian base-10 digits with explicit fuel (structurally
recursive, so that concrete ZIP strings evaluate by `rfl`). -/
def natDigitsAux : ℕ → ℕ → List ℕ
  | 0, _ => []
  | _ + 1, 0 => []
  | fuel + 1, n + 1 => (n + 1) % 10 :: natDigitsAux fuel ((n + 1) / 10)

/-- Little-endian base-10 digits of `n` (agrees with `Nat.digits 10`). -/
def natDigits (n : ℕ) : List ℕ := natDigitsAux n n

/-- Python's `str` applied to a non-negative integer: decimal digits, most
significant first, no leading zeros (`strOfNat 0 = "0"`). -/
def strOfNat (n : ℕ) : String :=
  if n = 0 then "0"
  else String.mk (((natDigits n).reverse).map (fun d => Char.ofNat (48 + d)))

/-- Python's `int` applied to a string of decimal digits (the only shape it
is applied to in the program: the zero-padded range-bound literals). -/
def parseNat (s : String) : ℕ :=
  s.data.foldl (fun a c => 10 * a + (c.toNat - 48)) 0

/-! ## Field generators -/

/-- `generate_zip_code` (lines 172–194): looks up the state's range with a
default of `(10000, 19999)` (Berlin) for a missing key; for `"Sachsen"`
first chooses one of the two string ranges at random; then returns
`str(random.randint(int(lo), int(hi)))`.  (The `else` branch of the source,
returning a string range unchanged, is unreachable with the registered
table — a chosen Sachsen range is a tuple and so takes the `randint` path —
and the dead non-Sachsen `strRanges` arm below mirrors that unreachability.) -/
def generate_zip_code (state : String) (g : RandState) : String × RandState :=
  let zr := (zip_code_ranges state).getD (.intRange 10000 19999)
  if state = "Sachsen" then
    match zr with
    | .strRanges rs =>
      let c := choice ("00000", "00000") rs g
      let n := randint (parseNat c.1.1) (parseNat c.1.2) c.2
      (strOfNat n.1.toNat, n.2)
    | .intRange lo hi =>
      let n := randint lo hi g
      (strOfNat n.1.toNat, n.2)
  else
    match zr with
    | .intRange lo hi =>
      let n := randint lo hi g
      (strOfNat n.1.toNat, n.2)
    | .strRanges _ => (strOfNat 0, g)

/-- `generate_geo_coordinates` (lines 196–211): exact lookup in
`city_coords`, with the national centroid as the fallback. -/
def generate_geo_coordinates (city : String) : ℚ × ℚ :=
  match city_coords city with
  | some p => p
  | none => (51.1657, 10.4515)

/-- `generate_email` (lines 213–240): a random provider, one of four
username formats, a random `1..100` digit suffix.  (Every format branch
consumes exactly one `randint(1, 100)` draw in the source, so that draw is
hoisted before the branch; value and state are unchanged.) -/
def generate_email (first_name last_name : String) (g : RandState) :
    String × RandState :=
  let ep := choice "gmx.de" email_providers g
  let ft := randint 1 4 ep.2
  let nr := randint 1 100 ft.2
  let f := first_name.toLower
  let l := last_name.toLower
  let username :=
    if ft.1 = 1 then f ++ "." ++ l ++ toString nr.1
    else if ft.1 = 2 then f.take 1 ++ l ++ toString nr.1
    else if ft.1 = 3 then f ++ l.take 1 ++ toString nr.1
    else l ++ "." ++ f ++ toString nr.1
  (username ++ "@" ++ ep.1, nr.2)

/-- `generate_address` (lines 242–257): ZIP code from the state via the
`random`-module stream; city, street name and building number from the
Faker stream.  Returns `(f"{zip_code} {city}", street)`. -/
def generate_address (state : String) (g : RandState) (fk : FakerState) :
    (String × String) × RandState × FakerState :=
  let z := generate_zip_code state g
  let c := fakerCity fk
  let sn := fakerStreetName c.2
  let bn := fakerBuildingNumber sn.2
  ((z.1 ++ " " ++ c.1, sn.1 ++ " " ++ bn.1), z.2, bn.2)

/-- `generate_birthday` (lines 259–277): delegates to
`faker.date_of_birth(minimum_age=18, maximum_age=80)` and formats it.
(The locally computed `start_date`/`end_date` of the source are unused.) -/
def generate_birthday (today : ℕ) (fk : FakerState) : String × FakerState :=
  fakerDateOfBirth today 18 80 fk

/-! ## Two-decimal rounding (Python's `round(x, 2)`) -/

/-- Round-half-to-even to the nearest integer (Python's `round` on the
rational model of floats). -/
def rhe (x : ℚ) : ℤ :=
  if x - ⌊x⌋ < 1 / 2 then ⌊x⌋
  else if 1 / 2 < x - ⌊x⌋ then ⌊x⌋ + 1
  else if ⌊x⌋ % 2 = 0 then ⌊x⌋ else ⌊x⌋ + 1

/-- Python's `round(x, 2)`. -/
def round2 (x : ℚ) : ℚ := (rhe (x * 100) : ℚ) / 100

/-- Model of `random.uniform(a, b)` : `a + (b - a) * random()`. -/
def uniform (a b : ℚ) (g : RandState) : ℚ × RandState :=
  let r := randomFloat g
  (a + (b - a) * r.1, r.2)

/-- `generate_price` (lines 279–288): `round(random.uniform(5.0, 199.99), 2)`. -/
def generate_price (g : RandState) : ℚ × RandState :=
  let u := uniform 5.0 199.99 g
  (round2 u.1, u.2)

/-- `generate_stueckzahl` (lines 290–302): quantity `1` when
`random.random() < 0.7`, otherwise `random.randint(2, 5)`. -/
def generate_stueckzahl (g : RandState) : ℤ × RandState :=
  let r := randomFloat g
  if r.1 < 0.7 then (1, r.2)
  else
    let n := randint 2 5 r.2
    (n.1, n.2)

/-- `generate_sales_tax` (lines 304–312): `0.19` when
`random.random() < 0.8`, otherwise `0.07`. -/
def generate_sales_tax (g : RandState) : ℚ × RandState :=
  let r := randomFloat g
  ((if r.1 < 0.8 then 0.19 else 0.07), r.2)

/-- `generate_purchase_type` (lines 314–322). -/
def generate_purchase_type (g : RandState) : String × RandState :=
  choice "Online" ["Online", "In-Store"] g

/-! ## Profile composer -/

/-- One synthesized record: the keys of the dict built by
`generate_profile` (lines 370–390). -/
structure Profile where
  first_name : String
  last_name : String
  gender : String
  email : String
  birthday : String
  street : String
  zip_city : String
  state : String
  latitude : ℚ
  longitude : ℚ
  purchase_item : String
  price : ℚ
  quantity : ℤ
  tax_rate : ℚ
  tax_amount : ℚ
  subtotal : ℚ
  total : ℚ
  purchase_type : String
  purchase_date : String
deriving DecidableEq, Repr

/-- Line 366 of `generate_profile`:
`zip_city.split(" ", 1)[1] if " " in zip_city else "Berlin"`. -/
def extract_city (zip_city : String) : String :=
  if ' ' ∈ zip_city.data then
    String.mk ((zip_city.data.dropWhile (fun c => c ≠ ' ')).drop 1)
  else "Berlin"

/-- `generate_profile` (lines 324–392): draws every field in source order,
threading the `random`-module state and the Faker state, then computes the
derived monetary fields and the coordinates.  `today` is the current year
(the wall-clock input of the Faker date providers, held fixed as part of
the reference data). -/
def generate_profile (today : ℕ) (g : RandState) (fk : FakerState) :
    Profile × RandState × FakerState :=
  let rg := randomFloat g
  let gender := if rg.1 < 0.5 then "male" else "female"
  let fn :=
    if gender = "male" then choice "Lukas" first_names_male rg.2
    else choice "Anna" first_names_female rg.2
  let ln := choice "Müller" last_names fn.2
  let em := generate_email fn.1 ln.1 ln.2
  let st := choice "Berlin" states em.2
  let ad := generate_address st.1 st.2 fk
  let bd := generate_birthday today ad.2.2
  let it := choice "Hose" purchase_items ad.2.1
  let pr := generate_price it.2
  let qt := generate_stueckzahl pr.2
  let tx := generate_sales_tax qt.2
  let pt := generate_purchase_type tx.2
  let subtotal := pr.1 * (qt.1 : ℚ)
  let tax_amount := subtotal * tx.1
  let total := subtotal + tax_amount
  let city := extract_city ad.1.1
  let co := generate_geo_coordinates city
  let pd := fakerDateTimeThisYear today bd.2
  (⟨fn.1, ln.1, gender, em.1, bd.1, ad.1.2, ad.1.1, st.1, co.1, co.2,
    it.1, round2 pr.1, qt.1, tx.1, round2 tax_amount, round2 subtotal,
    round2 total, pt.1, pd.1⟩, pt.2, pd.2)

/-- `generate_profiles` (lines 394–407): `count` repeated compositions,
in order, threading both random streams. -/
def generate_profiles (today : ℕ) (count : ℕ) (g : RandState)
    (fk : FakerState) : List Profile × RandState × FakerState :=
  match count with
  | 0 => ([], g, fk)
  | n + 1 =>
    let p := generate_profile today g fk
    let ps := generate_profiles today n p.2.1 p.2.2
    (p.1 :: ps.1, ps.2)

/-- The ZIP-code component of a profile's `zip_city` field: the leading
token before the first space (the split the source itself performs at
line 366). -/
def zipPart (s : String) : String :=
  String.mk (s.data.takeWhile (fun c => c ≠ ' '))

/-- The numeric value of a profile's ZIP code. -/
def profileZipNum (p : Profile) : ℕ := parseNat (zipPart p.zip_city)

/-! ## Basic facts about the modelled random primitives -/

theorem randint_le (a b : ℤ) (h : a ≤ b) (g : RandState) :
    a ≤ (randint a b g).1 ∧ (randint a b g).1 ≤ b := by
  unfold randint
  have hpos : (0 : ℤ) < b - a + 1 := by omega
  have h1 : (0 : ℤ) ≤ ((randNext g).1 : ℤ) % (b - a + 1) :=
    Int.emod_nonneg _ (by omega)
  have h2 : ((randNext g).1 : ℤ) % (b - a + 1) < b - a + 1 :=
    Int.emod_lt_of_pos _ hpos
  constructor <;> simp only [] <;> omega

theorem choice_mem {α : Type} (dflt : α) (l : List α) (hl : l ≠ [])
    (g : RandState) : (choice dflt l g).1 ∈ l := by
  unfold choice
  have hlen : 0 < l.length := List.length_pos.mpr hl
  have hidx : (randNext g).1 % l.length < l.length := Nat.mod_lt _ hlen
  simp only [List.getD_eq_getElem?_getD]
  rw [List.getElem?_eq_getElem hidx]
  simp only [Option.getD_some]
  exact List.getElem_mem hidx

/-- The state advance of `choice` does not depend on the list chosen. -/
theorem choice_snd {α : Type} (dflt : α) (l : List α) (g : RandState) :
    (choice dflt l g).2 = (randNext g).2 := rfl

/-! ## Decimal rendering and parsing -/

theorem natDigitsAux_eq (fuel n : ℕ) (h : n ≤ fuel) :
    natDigitsAux fuel n = Nat.digits 10 n := by
  induction fuel generalizing n with
  | zero =>
    simp [show n = 0 by omega, natDigitsAux]
  | succ f ih =>
    cases n with
    | zero => simp [natDigitsAux]
    | succ m =>
      simp only [natDigitsAux]
      rw [ih ((m + 1) / 10) (by omega),
        Nat.digits_def' (by norm_num : 1 < 10) (Nat.succ_pos m)]

theorem natDigits_eq (n : ℕ) : natDigits n = Nat.digits 10 n :=
  natDigitsAux_eq n n le_rfl

theorem strOfNat_length_five (m : ℕ) (h1 : 10000 ≤ m) (h2 : m < 100000) :
    (strOfNat m).length = 5 := by
  unfold strOfNat
  rw [if_neg (by omega)]
  show (((natDigits m).reverse).map _).length = 5
  rw [natDigits_eq, List.length_map, List.length_reverse,
    Nat.digits_len 10 m (by norm_num) (by omega)]
  have : Nat.log 10 m = 4 :=
    Nat.log_eq_of_pow_le_of_lt_pow (by norm_num [h1]) (by norm_num [h2])
  omega

theorem digitChar_toNat {d : ℕ} (h : d < 10) :
    (Char.ofNat (48 + d)).toNat = 48 + d := by
  interval_cases d <;> decide

theorem foldr_digits_eq (l : List ℕ) (h : ∀ d ∈ l, d < 10) :
    l.foldr (fun d a => 10 * a + ((Char.ofNat (48 + d)).toNat - 48)) 0 =
      Nat.ofDigits 10 l := by
  induction l with
  | nil => simp [Nat.ofDigits_nil]
  | cons d t ih =>
    have hd : d < 10 := h d (by simp)
    have ht : ∀ x ∈ t, x < 10 := fun x hx => h x (by simp [hx])
    simp only [List.foldr_cons, ih ht, Nat.ofDigits_cons,
      digitChar_toNat hd]
    omega

theorem parseNat_strOfNat (n : ℕ) : parseNat (strOfNat n) = n := by
  unfold parseNat strOfNat
  by_cases h : n = 0
  · subst h; decide
  · rw [if_neg h]
    show (((natDigits n).reverse).map (fun d => Char.ofNat (48 + d))).foldl
        (fun a c => 10 * a + (c.toNat - 48)) 0 = n
    rw [natDigits_eq, List.map_reverse, List.foldl_reverse, List.foldr_map]
    have := foldr_digits_eq (Nat.digits 10 n)
      (fun d hd => Nat.digits_lt_base (by norm_num) hd)
    simpa [this] using Nat.ofDigits_digits 10 n

theorem strOfNat_no_space (n : ℕ) : ∀ c ∈ (strOfNat n).data, c ≠ ' ' := by
  unfold strOfNat
  by_cases h : n = 0
  · subst h; decide
  · rw [if_neg h]
    intro c hc
    show ¬ _
    simp only [String.mk] at hc
    rw [List.mem_map] at hc
    obtain ⟨d, hd, rfl⟩ := hc
    rw [natDigits_eq] at hd
    have hd10 : d < 10 :=
      Nat.digits_lt_base (by norm_num) (List.mem_reverse.mp hd)
    intro heq
    have := congrArg Char.toNat heq
    rw [digitChar_toNat hd10] at this
    simp at this
    omega

theorem takeWhile_append_sep {p : Char → Bool} (l₁ l₂ : List Char) (a : Char)
    (h : ∀ x ∈ l₁, p x) (ha : ¬ p a) :
    (l₁ ++ a :: l₂).takeWhile p = l₁ := by
  induction l₁ with
  | nil => simp [List.takeWhile, ha]
  | cons x t ih =>
    have hx : p x := h x (by simp)
    simp only [List.cons_append, List.takeWhile_cons, hx, if_true]
    rw [ih (fun y hy => h y (by simp [hy]))]

theorem dropWhile_append_sep {p : Char → Bool} (l₁ l₂ : List Char) (a : Char)
    (h : ∀ x ∈ l₁, p x) (ha : ¬ p a) :
    (l₁ ++ a :: l₂).dropWhile p = a :: l₂ := by
  induction l₁ with
  | nil => simp [List.dropWhile, ha]
  | cons x t ih =>
    have hx : p x := h x (by simp)
    simp only [List.cons_append, List.dropWhile_cons, hx, if_true]
    exact ih (fun y hy => h y (by simp [hy]))

theorem zipPart_append (z c : String) (hz : ∀ x ∈ z.data, x ≠ ' ') :
    zipPart (z ++ " " ++ c) = z := by
  unfold zipPart
  have hdata : (z ++ " " ++ c).data = z.data ++ ' ' :: c.data := by
    simp [String.data_append]
  rw [hdata, takeWhile_append_sep _ _ _ (by simpa using hz) (by simp)]

theorem extract_city_append (z c : String) (hz : ∀ x ∈ z.data, x ≠ ' ') :
    extract_city (z ++ " " ++ c) = c := by
  unfold extract_city
  have hdata : (z ++ " " ++ c).data = z.data ++ ' ' :: c.data := by
    simp [String.data_append]
  rw [hdata, if_pos (by simp), dropWhile_append_sep _ _ _ (by simpa using hz)
    (by simp)]
  simp

/-! ## The ZIP-range table -/

/-- Every state other than `"Sachsen"` — and the missing-key default —
resolves to a single integer range inside `[10000, 99999]`. -/
theorem zip_table_nonSachsen (st : String) (h : st ≠ "Sachsen") :
    ∃ lo hi : ℤ,
      (zip_code_ranges st).getD (.intRange 10000 19999) = .intRange lo hi ∧
      10000 ≤ lo ∧ lo ≤ hi ∧ hi ≤ 99999 := by
  unfold zip_code_ranges
  by_cases h1 : st = "Baden-Württemberg"
  · exact ⟨70000, 79999, by rw [if_pos h1]; rfl, by norm_num, by norm_num, by norm_num⟩
  simp only [if_neg h1]
  by_cases h2 : st = "Bayern"
  · exact ⟨80000, 99999, by rw [if_pos h2]; rfl, by norm_num, by norm_num, by norm_num⟩
  simp only [if_neg h2]
  by_cases h3 : st = "Berlin"
  · exact ⟨10000, 19999, by rw [if_pos h3]; rfl, by norm_num, by norm_num, by norm_num⟩
  simp only [if_neg h3]
  by_cases h4 : st = "Brandenburg"
  · exact ⟨14000, 14999, by rw [if_pos h4]; rfl, by norm_num, by norm_num, by norm_num⟩
  simp only [if_neg h4]
  by_cases h5 : st = "Bremen"
  · exact ⟨28000, 28999, by rw [if_pos h5]; rfl, by norm_num, by norm_num, by norm_num⟩
  simp only [if_neg h5]
  by_cases h6 : st = "Hamburg"
  · exact ⟨20000, 29999, by rw [if_pos h6]; rfl, by norm_num, by norm_num, by norm_num⟩
  simp only [if_neg h6]
  by_cases h7 : st = "Hessen"
  · exact ⟨60000, 69999, by rw [if_pos h7]; rfl, by norm_num, by norm_num, by norm_num⟩
  simp only [if_neg h7]
  by_cases h8 : st = "Niedersachsen"
  · exact ⟨26000, 29999, by rw [if_pos h8]; rfl, by norm_num, by norm_num, by norm_num⟩
  simp only [if_neg h8]
  by_cases h9 : st = "Mecklenburg-Vorpommern"
  · exact ⟨17000, 17999, by rw [if_pos h9]; rfl, by norm_num, by norm_num, by norm_num⟩
  simp only [if_neg h9]
  by_cases h10 : st = "Nordrhein-Westfalen"
  · exact ⟨40000, 49999, by rw [if_pos h10]; rfl, by norm_num, by norm_num, by norm_num⟩
  simp only [if_neg h10]
  by_cases h11 : st = "Rheinland-Pfalz"
  · exact ⟨55000, 59999, by rw [if_pos h11]; rfl, by norm_num, by norm_num, by norm_num⟩
  simp only [if_neg h11]
  by_cases h12 : st = "Saarland"
  · exact ⟨66000, 66999, by rw [if_pos h12]; rfl, by norm_num, by norm_num, by norm_num⟩
  simp only [if_neg h12, if_neg h]
  by_cases h13 : st = "Sachsen-Anhalt"
  · exact ⟨39000, 39999, by rw [if_pos h13]; rfl, by norm_num, by norm_num, by norm_num⟩
  simp only [if_neg h13]
  by_cases h14 : st = "Schleswig-Holstein"
  · exact ⟨24000, 25999, by rw [if_pos h14]; rfl, by norm_num, by norm_num, by norm_num⟩
  simp only [if_neg h14]
  by_cases h15 : st = "Thüringen"
  · exact ⟨99000, 99999, by rw [if_pos h15]; rfl, by norm_num, by norm_num, by norm_num⟩
  simp only [if_neg h15]
  exact ⟨10000, 19999, rfl, by norm_num, by norm_num, by norm_num⟩

/-- The registered entry for `"Sachsen"`: the two zero-padded string ranges. -/
theorem zip_table_sachsen :
    zip_code_ranges "Sachsen" =
      some (.strRanges [("01000", "01999"), ("04000", "04999")]) := by
  simp [zip_code_ranges]

/-! ## Round-half-to-even arithmetic -/

theorem rhe_intCast (m : ℤ) : rhe (m : ℚ) = m := by
  unfold rhe
  rw [Int.floor_intCast, if_pos (by norm_num)]

theorem rhe_int_add (m : ℤ) (x : ℚ) (h : m % 2 = 0 ∨ x - ⌊x⌋ ≠ 1 / 2) :
    rhe ((m : ℚ) + x) = m + rhe x := by
  unfold rhe
  rw [Int.floor_int_add]
  have hfr : (m : ℚ) + x - ((m + ⌊x⌋ : ℤ) : ℚ) = x - ⌊x⌋ := by
    push_cast; ring
  rw [hfr]
  by_cases h1 : x - ⌊x⌋ < 1 / 2
  · rw [if_pos h1, if_pos h1]
  · rw [if_neg h1, if_neg h1]
    by_cases h2 : 1 / 2 < x - ⌊x⌋
    · rw [if_pos h2, if_pos h2]; omega
    · rw [if_neg h2, if_neg h2]
      have heq : x - ⌊x⌋ = 1 / 2 := le_antisymm (not_lt.mp h2) (not_lt.mp h1)
      rcases h with hm | hne
      · have hpar : (m + ⌊x⌋) % 2 = ⌊x⌋ % 2 := by omega
        rw [hpar]
        by_cases h3 : ⌊x⌋ % 2 = 0
        · rw [if_pos h3, if_pos h3]
        · rw [if_neg h3, if_neg h3]; omega
      · exact absurd heq hne

/-- The fractional part of `a / 100` for an integer `a`. -/
theorem fract_int_div_100 (a : ℤ) :
    (a : ℚ) / 100 - ⌊(a : ℚ) / 100⌋ = ((a % 100 : ℤ) : ℚ) / 100 := by
  have h0 : (0 : ℤ) ≤ a % 100 := Int.emod_nonneg a (by norm_num)
  have h1 : a % 100 < 100 := Int.emod_lt_of_pos a (by norm_num)
  have hsum : (100 : ℤ) * (a / 100) + a % 100 = a := Int.ediv_add_emod a 100
  have hx : (a : ℚ) / 100 = ((a / 100 : ℤ) : ℚ) + ((a % 100 : ℤ) : ℚ) / 100 := by
    have : (a : ℚ) = 100 * ((a / 100 : ℤ) : ℚ) + ((a % 100 : ℤ) : ℚ) := by
      exact_mod_cast hsum.symm
    rw [this]; ring
  rw [hx, Int.floor_int_add]
  have hfl : ⌊((a % 100 : ℤ) : ℚ) / 100⌋ = 0 := by
    rw [Int.floor_eq_zero_iff]
    constructor
    · positivity
    · rw [div_lt_one (by norm_num)]
      exact_mod_cast h1
  rw [hfl]
  push_cast
  ring

theorem fract_half_iff (a : ℤ) :
    (a : ℚ) / 100 - ⌊(a : ℚ) / 100⌋ = 1 / 2 ↔ a % 100 = 50 := by
  rw [fract_int_div_100]
  constructor
  · intro h
    have : ((a % 100 : ℤ) : ℚ) = 50 := by
      field_simp at h
      linarith
    exact_mod_cast this
  · intro h
    rw [h]
    norm_num

/-- An even product condition: if `k * r ≡ 50 (mod 100)` and `r` is odd
then `k` is even. -/
theorem even_of_mul_emod_fifty (k r : ℤ) (hr : r % 2 = 1)
    (h : (k * r) % 100 = 50) : k % 2 = 0 := by
  have hmm := Int.emod_emod_of_dvd (k * r) (show (2:ℤ) ∣ 100 by norm_num)
  rw [h] at hmm
  have h2 : (k * r) % 2 = 0 := by
    rw [← hmm]
    decide
  have hek : Even (k * r) := Int.even_iff.mpr h2
  rcases Int.even_mul.mp hek with hk | hrr
  · exact Int.even_iff.mp hk
  · exact absurd (Int.even_iff.mp hrr) (by omega)

theorem round2_intCast_div (m : ℤ) :
    round2 ((m : ℚ) / 100) = (m : ℚ) / 100 := by
  unfold round2
  rw [div_mul_cancel₀ _ (show (100 : ℚ) ≠ 0 by norm_num), rhe_intCast]

theorem round2_round2 (x : ℚ) : round2 (round2 x) = round2 x :=
  round2_intCast_div _

theorem round2_mul_int (u : ℚ) (q : ℤ) :
    round2 (round2 u * (q : ℚ)) = round2 u * (q : ℚ) := by
  have hsh : round2 u * (q : ℚ) = ((rhe (u * 100) * q : ℤ) : ℚ) / 100 := by
    unfold round2; push_cast; ring
  rw [hsh, round2_intCast_div]

/-- The central monetary identity: adding the exact tax to the subtotal
and rounding once agrees with rounding the tax first (rates `0.19` and
`0.07`; both numerators are odd, which rules out the half-to-even tie
where the two sides could differ). -/
theorem round2_add_tax (k rr : ℤ) (hr : rr = 19 ∨ rr = 7) :
    round2 ((k : ℚ) / 100 + (k : ℚ) / 100 * ((rr : ℚ) / 100)) =
      round2 ((k : ℚ) / 100 + round2 ((k : ℚ) / 100 * ((rr : ℚ) / 100))) := by
  have hprod : (k : ℚ) / 100 * ((rr : ℚ) / 100) * 100 = ((k * rr : ℤ) : ℚ) / 100 := by
    push_cast; ring
  have hrhs : round2 ((k : ℚ) / 100 * ((rr : ℚ) / 100)) =
      ((rhe (((k * rr : ℤ) : ℚ) / 100) : ℤ) : ℚ) / 100 := by
    unfold round2
    rw [hprod]
  set t := rhe (((k * rr : ℤ) : ℚ) / 100) with ht
  have hsum : (k : ℚ) / 100 + (t : ℚ) / 100 = ((k + t : ℤ) : ℚ) / 100 := by
    push_cast; ring
  rw [hrhs, hsum, round2_intCast_div]
  have hlhs : ((k : ℚ) / 100 + (k : ℚ) / 100 * ((rr : ℚ) / 100)) * 100 =
      (k : ℚ) + ((k * rr : ℤ) : ℚ) / 100 := by
    push_cast; ring
  unfold round2
  rw [hlhs]
  have hkey : rhe ((k : ℚ) + ((k * rr : ℤ) : ℚ) / 100) = k + t := by
    rw [rhe_int_add]
    by_cases hmod : (k * rr) % 100 = 50
    · left
      have hkev : k % 2 = 0 :=
        even_of_mul_emod_fifty k rr (by rcases hr with h | h <;> omega) hmod
      exact hkev
    · right
      intro hc
      exact hmod ((fract_half_iff (k * rr)).mp hc)
  rw [hkey]

/-! ## Behaviour of the ZIP-code generator -/

/-- Every path through `generate_zip_code` returns `str` of some number. -/
theorem generate_zip_code_shape (st : String) (g : RandState) :
    ∃ m : ℕ, (generate_zip_code st g).1 = strOfNat m := by
  unfold generate_zip_code
  cases hzr : (zip_code_ranges st).getD (.intRange 10000 19999) with
  | intRange lo hi =>
    by_cases hst : st = "Sachsen"
    · simp only [hzr, if_pos hst]
      exact ⟨_, rfl⟩
    · simp only [hzr, if_neg hst]
      exact ⟨_, rfl⟩
  | strRanges rs =>
    by_cases hst : st = "Sachsen"
    · simp only [hzr, if_pos hst]
      exact ⟨_, rfl⟩
    · simp only [hzr, if_neg hst]
      exact ⟨_, rfl⟩

/-- ZIP strings contain no space character. -/
theorem generate_zip_code_no_space (st : String) (g : RandState) :
    ∀ c ∈ ((generate_zip_code st g).1).data, c ≠ ' ' := by
  obtain ⟨m, hm⟩ := generate_zip_code_shape st g
  rw [hm]
  exact strOfNat_no_space m

/-- For a non-`"Sachsen"` state the generated ZIP value lies inside the
(single) range the table resolves to, which itself sits inside
`[10000, 99999]`. -/
theorem generate_zip_code_nonSachsen (st : String) (h : st ≠ "Sachsen")
    (g : RandState) :
    ∃ lo hi : ℤ,
      (zip_code_ranges st).getD (.intRange 10000 19999) = .intRange lo hi ∧
      10000 ≤ lo ∧ hi ≤ 99999 ∧
      lo ≤ (parseNat (generate_zip_code st g).1 : ℤ) ∧
      (parseNat (generate_zip_code st g).1 : ℤ) ≤ hi := by
  obtain ⟨lo, hi, hget, h1, h2, h3⟩ := zip_table_nonSachsen st h
  refine ⟨lo, hi, hget, h1, h3, ?_⟩
  unfold generate_zip_code
  simp only [hget, if_neg h]
  obtain ⟨hb1, hb2⟩ := randint_le lo hi (by omega) g
  rw [parseNat_strOfNat]
  omega

/-- For `"Sachsen"` the generated ZIP value lies inside the union of the
two registered ranges (numerically `1000..1999 ∪ 4000..4999`). -/
theorem generate_zip_code_sachsen (g : RandState) :
    (1000 ≤ parseNat (generate_zip_code "Sachsen" g).1 ∧
      parseNat (generate_zip_code "Sachsen" g).1 ≤ 1999) ∨
    (4000 ≤ parseNat (generate_zip_code "Sachsen" g).1 ∧
      parseNat (generate_zip_code "Sachsen" g).1 ≤ 4999) := by
  unfold generate_zip_code
  have hget : (zip_code_ranges "Sachsen").getD (.intRange 10000 19999) =
      .strRanges [("01000", "01999"), ("04000", "04999")] := by
    rw [zip_table_sachsen]
    rfl
  simp only [hget, if_pos rfl, if_true]
  have hmem := choice_mem ("00000", "00000")
    [("01000", "01999"), ("04000", "04999")] (by simp) g
  rcases (by simpa using hmem :
      (choice ("00000", "00000") [("01000", "01999"), ("04000", "04999")] g).1
        = ("01000", "01999") ∨
      (choice ("00000", "00000") [("01000", "01999"), ("04000", "04999")] g).1
        = ("04000", "04999")) with hc | hc <;>
    rw [hc] <;> dsimp only <;> rw [parseNat_strOfNat]
  · left
    have hp1 : parseNat "01000" = 1000 := by decide
    have hp2 : parseNat "01999" = 1999 := by decide
    rw [hp1, hp2]
    obtain ⟨hb1, hb2⟩ := randint_le _ _
      (show ((1000 : ℕ) : ℤ) ≤ ((1999 : ℕ) : ℤ) by norm_num)
      (choice ("00000", "00000") [("01000", "01999"), ("04000", "04999")] g).2
    omega
  · right
    have hp1 : parseNat "04000" = 4000 := by decide
    have hp2 : parseNat "04999" = 4999 := by decide
    rw [hp1, hp2]
    obtain ⟨hb1, hb2⟩ := randint_le _ _
      (show ((4000 : ℕ) : ℤ) ≤ ((4999 : ℕ) : ℤ) by norm_num)
      (choice ("00000", "00000") [("01000", "01999"), ("04000", "04999")] g).2
    omega

/-! ## Claims about the ZIP-code and coordinate generators -/

/-- C10: for every state other than `"Sachsen"` — including unregistered
names, which fall back to the Berlin range — the generated ZIP code is a
string of exactly five decimal digits, because every single-range bound
lies in `[10000, 99999]`. -/
theorem c10_nonSachsen_zip_has_five_digits (st : String)
    (h : st ≠ "Sachsen") (g : RandState) :
    ((generate_zip_code st g).1).length = 5 := by
  obtain ⟨lo, hi, hget, h1, h2, h3⟩ := zip_table_nonSachsen st h
  unfold generate_zip_code
  simp only [hget, if_neg h]
  obtain ⟨hb1, hb2⟩ := randint_le lo hi (by omega) g
  exact strOfNat_length_five _ (by omega) (by omega)

/-- Witness for C10 at the concrete state `"Bayern"` and a concrete
random state. -/
theorem c10_nonSachsen_zip_has_five_digits_witness :
    ((generate_zip_code "Bayern" ⟨0⟩).1).length = 5 :=
  c10_nonSachsen_zip_has_five_digits "Bayern" (by decide) ⟨0⟩

/-- C7: an unregistered state does not raise; it falls back to the Berlin
range `(10000, 19999)`, so the generated ZIP value lies in
`[10000, 19999]`. -/
theorem c7_unknown_state_uses_berlin_range (st : String)
    (h : zip_code_ranges st = none) (g : RandState) :
    10000 ≤ parseNat (generate_zip_code st g).1 ∧
      parseNat (generate_zip_code st g).1 ≤ 19999 := by
  have hst : st ≠ "Sachsen" := by
    intro he
    rw [he, zip_table_sachsen] at h
    exact Option.noConfusion h
  unfold generate_zip_code
  simp only [h, Option.getD_none, if_neg hst]
  obtain ⟨hb1, hb2⟩ := randint_le 10000 19999 (by omega) g
  rw [parseNat_strOfNat]
  omega

/-- Witness for C7 at the unregistered state `"Atlantis"`. -/
theorem c7_unknown_state_uses_berlin_range_witness :
    10000 ≤ parseNat (generate_zip_code "Atlantis" ⟨0⟩).1 ∧
      parseNat (generate_zip_code "Atlantis" ⟨0⟩).1 ≤ 19999 :=
  c7_unknown_state_uses_berlin_range "Atlantis" (by simp [zip_code_ranges]) ⟨0⟩

/-- C6: the coordinate generator is total: a registered city returns its
registered pair, any other city returns the fixed national centroid. -/
theorem c6_coordinates_lookup_or_centroid (city : String) :
    (∀ p : ℚ × ℚ, city_coords city = some p →
        generate_geo_coordinates city = p) ∧
    (city_coords city = none →
        generate_geo_coordinates city = (51.1657, 10.4515)) := by
  constructor
  · intro p hp
    unfold generate_geo_coordinates
    rw [hp]
  · intro hn
    unfold generate_geo_coordinates
    rw [hn]

/-- Witness for C6: a registered city (`"Berlin"`) and an unregistered one
(`"Atlantis"`). -/
theorem c6_coordinates_lookup_or_centroid_witness :
    generate_geo_coordinates "Berlin" = (52.5200, 13.4050) ∧
      generate_geo_coordinates "Atlantis" = (51.1657, 10.4515) :=
  ⟨(c6_coordinates_lookup_or_centroid "Berlin").1 _ (by simp [city_coords]),
   (c6_coordinates_lookup_or_centroid "Atlantis").2 (by simp [city_coords])⟩

/-- C5 (refuting evaluation): at the concrete random state `1`, the
`"Sachsen"` draw lands in the registered zero-padded range
`("01000", "01999")` but is rendered as the 4-character string `"1575"` —
`str(int(...))` drops the leading zero, so the five-digit width of the
registered ranges is not preserved. -/
theorem c5_sachsen_zip_drops_leading_zero :
    (generate_zip_code "Sachsen" ⟨1⟩).1 = "1575" ∧
      ((generate_zip_code "Sachsen" ⟨1⟩).1).length = 4 := by
  constructor <;> rfl

/-! ## Values of the purchase generators -/

/-- The price is always a whole number of cents. -/
theorem generate_price_shape (g : RandState) :
    ∃ m : ℤ, (generate_price g).1 = (m : ℚ) / 100 :=
  ⟨rhe ((uniform 5.0 199.99 g).1 * 100), rfl⟩

/-- The tax rate is `0.19` or `0.07`. -/
theorem generate_sales_tax_val (g : RandState) :
    (generate_sales_tax g).1 = 0.19 ∨ (generate_sales_tax g).1 = 0.07 := by
  unfold generate_sales_tax
  dsimp only
  by_cases h : (randomFloat g).1 < 0.8
  · left; rw [if_pos h]
  · right; rw [if_neg h]

/-- The quantity is `1` or an integer in `[2, 5]`. -/
theorem generate_stueckzahl_val (g : RandState) :
    (generate_stueckzahl g).1 = 1 ∨
      (2 ≤ (generate_stueckzahl g).1 ∧ (generate_stueckzahl g).1 ≤ 5) := by
  unfold generate_stueckzahl
  dsimp only
  by_cases h : (randomFloat g).1 < 0.7
  · left; rw [if_pos h]
  · right
    rw [if_neg h]
    exact randint_le 2 5 (by omega) _

/-- Helper: multiplying a 100th by an integer stays a 100th. -/
theorem intdiv100_mul_int (m q : ℤ) :
    (m : ℚ) / 100 * (q : ℚ) = ((m * q : ℤ) : ℚ) / 100 := by
  push_cast
  ring

/-- The three derivation equations of the stored monetary fields, for an
arbitrary cent price, integer quantity, and one of the two tax rates. -/
theorem monetary_consistent (price : ℚ) (hm : ∃ m : ℤ, price = (m : ℚ) / 100)
    (q : ℤ) (rate : ℚ) (hrate : rate = 0.19 ∨ rate = 0.07) :
    round2 (price * (q : ℚ)) = round2 (round2 price * (q : ℚ)) ∧
    round2 (price * (q : ℚ) * rate) =
      round2 (round2 (price * (q : ℚ)) * rate) ∧
    round2 (price * (q : ℚ) + price * (q : ℚ) * rate) =
      round2 (round2 (price * (q : ℚ)) + round2 (price * (q : ℚ) * rate)) := by
  obtain ⟨m, rfl⟩ := hm
  refine ⟨?_, ?_, ?_⟩
  · rw [round2_intCast_div]
  · rw [intdiv100_mul_int, round2_intCast_div]
  · rw [intdiv100_mul_int, round2_intCast_div]
    rcases hrate with h | h <;> rw [h]
    · rw [show (0.19 : ℚ) = ((19 : ℤ) : ℚ) / 100 by norm_num]
      exact round2_add_tax (m * q) 19 (Or.inl rfl)
    · rw [show (0.07 : ℚ) = ((7 : ℤ) : ℚ) / 100 by norm_num]
      exact round2_add_tax (m * q) 7 (Or.inr rfl)

/-! ## Claims about the profile composer -/

/-- C9: the city and the street line produced by `generate_address` do not
depend on the state argument — only the ZIP-code component of `zip_city`
does (the city and street come from the Faker stream, which the
state-driven ZIP draw never touches). -/
theorem c9_address_city_street_independent_of_state (s1 s2 : String)
    (g : RandState) (fk : FakerState) :
    extract_city ((generate_address s1 g fk).1.1) =
      extract_city ((generate_address s2 g fk).1.1) ∧
    (generate_address s1 g fk).1.2 = (generate_address s2 g fk).1.2 := by
  unfold generate_address
  dsimp only
  constructor
  · rw [extract_city_append _ _ (generate_zip_code_no_space s1 g),
      extract_city_append _ _ (generate_zip_code_no_space s2 g)]
  · rfl

/-- C8: every profile has tax rate exactly `0.19` or `0.07`, and quantity
`1` or an integer in `[2, 5]`. -/
theorem c8_tax_rate_and_quantity (today : ℕ) (g : RandState)
    (fk : FakerState) :
    (((generate_profile today g fk).1).tax_rate = 0.19 ∨
      ((generate_profile today g fk).1).tax_rate = 0.07) ∧
    (((generate_profile today g fk).1).quantity = 1 ∨
      (2 ≤ ((generate_profile today g fk).1).quantity ∧
        ((generate_profile today g fk).1).quantity ≤ 5)) := by
  unfold generate_profile
  dsimp only
  exact ⟨generate_sales_tax_val _, generate_stueckzahl_val _⟩

/-- C2: the stored monetary fields satisfy the two-decimal derivation
formulas: `subtotal = round2 (price * quantity)`,
`tax_amount = round2 (subtotal * tax_rate)`,
`total = round2 (subtotal + tax_amount)` — all in terms of the stored
(already rounded) fields. -/
theorem c2_monetary_fields (today : ℕ) (g : RandState) (fk : FakerState) :
    ((generate_profile today g fk).1).subtotal =
      round2 (((generate_profile today g fk).1).price *
        (((generate_profile today g fk).1).quantity : ℚ)) ∧
    ((generate_profile today g fk).1).tax_amount =
      round2 (((generate_profile today g fk).1).subtotal *
        ((generate_profile today g fk).1).tax_rate) ∧
    ((generate_profile today g fk).1).total =
      round2 (((generate_profile today g fk).1).subtotal +
        ((generate_profile today g fk).1).tax_amount) := by
  unfold generate_profile
  dsimp only
  obtain ⟨ha, hb, hc⟩ := monetary_consistent _ (generate_price_shape _) _ _
    (generate_sales_tax_val _)
  exact ⟨ha, hb, hc⟩

/-- C4: the first name is drawn from the pool matching the drawn gender. -/
theorem c4_first_name_matches_gender_pool (today : ℕ) (g : RandState)
    (fk : FakerState) :
    (((generate_profile today g fk).1).gender = "male" →
      ((generate_profile today g fk).1).first_name ∈ first_names_male) ∧
    (((generate_profile today g fk).1).gender = "female" →
      ((generate_profile today g fk).1).first_name ∈ first_names_female) := by
  unfold generate_profile
  dsimp only
  by_cases hg : (randomFloat g).1 < 0.5
  · simp only [if_pos hg]
    constructor
    · intro _
      simp only [if_true]
      exact choice_mem _ _ (by simp [first_names_male]) _
    · intro h2
      exact absurd h2 (by decide)
  · simp only [if_neg hg]
    constructor
    · intro h2
      exact absurd h2 (by decide)
    · intro _
      rw [if_neg (by decide : ¬ ("female" : String) = "male")]
      exact choice_mem _ _ (by simp [first_names_female]) _

/-- Witness for C4: the random state `0` draws a male profile, the random
state `1` a female one. -/
theorem c4_first_name_matches_gender_pool_witness :
    ((generate_profile 2026 ⟨0⟩ ⟨0⟩).1).first_name ∈ first_names_male ∧
    ((generate_profile 2026 ⟨1⟩ ⟨0⟩).1).first_name ∈ first_names_female :=
  ⟨(c4_first_name_matches_gender_pool 2026 ⟨0⟩ ⟨0⟩).1
      (by unfold generate_profile; dsimp only; norm_num [randomFloat, randNext]),
   (c4_first_name_matches_gender_pool 2026 ⟨1⟩ ⟨0⟩).2
      (by unfold generate_profile; dsimp only; norm_num [randomFloat, randNext])⟩

/-- Every listed state except `"Sachsen"` is registered in the ZIP table
with a single integer range. -/
theorem states_mem_nonSachsen_range (st : String) (hmem : st ∈ states)
    (h : st ≠ "Sachsen") :
    ∃ lo hi : ℤ, zip_code_ranges st = some (.intRange lo hi) := by
  fin_cases hmem
  · exact ⟨70000, 79999, by simp [zip_code_ranges]⟩
  · exact ⟨80000, 99999, by simp [zip_code_ranges]⟩
  · exact ⟨10000, 19999, by simp [zip_code_ranges]⟩
  · exact ⟨14000, 14999, by simp [zip_code_ranges]⟩
  · exact ⟨28000, 28999, by simp [zip_code_ranges]⟩
  · exact ⟨20000, 29999, by simp [zip_code_ranges]⟩
  · exact ⟨60000, 69999, by simp [zip_code_ranges]⟩
  · exact ⟨26000, 29999, by simp [zip_code_ranges]⟩
  · exact ⟨17000, 17999, by simp [zip_code_ranges]⟩
  · exact ⟨40000, 49999, by simp [zip_code_ranges]⟩
  · exact ⟨55000, 59999, by simp [zip_code_ranges]⟩
  · exact ⟨66000, 66999, by simp [zip_code_ranges]⟩
  · exact absurd rfl h
  · exact ⟨39000, 39999, by simp [zip_code_ranges]⟩
  · exact ⟨24000, 25999, by simp [zip_code_ranges]⟩
  · exact ⟨99000, 99999, by simp [zip_code_ranges]⟩

/-- The per-state form of the ZIP claim: for a state drawn from `states`
the generated value is within the registered range, with the Sachsen union
special case. -/
theorem zip_state_claim (st : String) (hmem : st ∈ states) (g : RandState) :
    (st = "Sachsen" →
      (1000 ≤ parseNat (generate_zip_code st g).1 ∧
        parseNat (generate_zip_code st g).1 ≤ 1999) ∨
      (4000 ≤ parseNat (generate_zip_code st g).1 ∧
        parseNat (generate_zip_code st g).1 ≤ 4999)) ∧
    (st ≠ "Sachsen" →
      ∃ lo hi : ℤ, zip_code_ranges st = some (.intRange lo hi) ∧
        lo ≤ (parseNat (generate_zip_code st g).1 : ℤ) ∧
        (parseNat (generate_zip_code st g).1 : ℤ) ≤ hi) := by
  constructor
  · intro hs
    subst hs
    exact generate_zip_code_sachsen g
  · intro hs
    obtain ⟨lo, hi, hsome⟩ := states_mem_nonSachsen_range st hmem hs
    have hgetD := congrArg
      (fun o : Option ZipEntry => o.getD (ZipEntry.intRange 10000 19999)) hsome
    simp only [Option.getD_some] at hgetD
    obtain ⟨lo', hi', hget', _, _, hb1, hb2⟩ :=
      generate_zip_code_nonSachsen st hs g
    rw [hgetD] at hget'
    injection hget' with e1 e2
    subst e1
    subst e2
    exact ⟨lo, hi, hsome, hb1, hb2⟩

/-- C1: the numeric ZIP value of every profile lies within the range
registered for the profile's state; for `"Sachsen"` it lies within the
union of the two registered ranges (numerically
`1000..1999 ∪ 4000..4999`, the values of `01000–01999` and
`04000–04999`). -/
theorem c1_zip_within_state_ranges (today : ℕ) (g : RandState)
    (fk : FakerState) :
    (((generate_profile today g fk).1).state = "Sachsen" →
      (1000 ≤ profileZipNum (generate_profile today g fk).1 ∧
        profileZipNum (generate_profile today g fk).1 ≤ 1999) ∨
      (4000 ≤ profileZipNum (generate_profile today g fk).1 ∧
        profileZipNum (generate_profile today g fk).1 ≤ 4999)) ∧
    (((generate_profile today g fk).1).state ≠ "Sachsen" →
      ∃ lo hi : ℤ,
        zip_code_ranges ((generate_profile today g fk).1).state =
          some (.intRange lo hi) ∧
        lo ≤ (profileZipNum (generate_profile today g fk).1 : ℤ) ∧
        (profileZipNum (generate_profile today g fk).1 : ℤ) ≤ hi) := by
  unfold profileZipNum generate_profile generate_address
  dsimp only
  rw [zipPart_append _ _ (generate_zip_code_no_space _ _)]
  exact zip_state_claim _ (choice_mem _ _ (by simp [states]) _) _

/-- Witness for C1: the random state `13` draws the state `"Sachsen"`,
the random state `0` draws `"Saarland"`. -/
theorem c1_zip_within_state_ranges_witness :
    ((1000 ≤ profileZipNum (generate_profile 2026 ⟨13⟩ ⟨0⟩).1 ∧
        profileZipNum (generate_profile 2026 ⟨13⟩ ⟨0⟩).1 ≤ 1999) ∨
      (4000 ≤ profileZipNum (generate_profile 2026 ⟨13⟩ ⟨0⟩).1 ∧
        profileZipNum (generate_profile 2026 ⟨13⟩ ⟨0⟩).1 ≤ 4999)) ∧
    (∃ lo hi : ℤ,
      zip_code_ranges ((generate_profile 2026 ⟨0⟩ ⟨0⟩).1).state =
        some (.intRange lo hi) ∧
      lo ≤ (profileZipNum (generate_profile 2026 ⟨0⟩ ⟨0⟩).1 : ℤ) ∧
      (profileZipNum (generate_profile 2026 ⟨0⟩ ⟨0⟩).1 : ℤ) ≤ hi) :=
  ⟨(c1_zip_within_state_ranges 2026 ⟨13⟩ ⟨0⟩).1
      (by
        unfold generate_profile generate_email
        dsimp only
        norm_num [randomFloat, randNext, choice, randint, states, List.getD,
          if_neg (show ¬ ("female" : String) = "male" by decide)]),
   (c1_zip_within_state_ranges 2026 ⟨0⟩ ⟨0⟩).2
      (by
        unfold generate_profile generate_email
        dsimp only
        norm_num [randomFloat, randNext, choice, randint, states, List.getD]
        decide)⟩

/-- C3: seeded batch generation is deterministic — two runs from the same
seed, count and reference data (including the fixed wall-clock year)
produce identical profile sequences. -/
theorem c3_seeded_runs_identical (seed today count : ℕ)
    (g₁ g₂ : RandState) (fk₁ fk₂ : FakerState)
    (h1 : g₁ = seedRandom seed) (h2 : fk₁ = seedFaker seed)
    (h3 : g₂ = seedRandom seed) (h4 : fk₂ = seedFaker seed) :
    generate_profiles today count g₁ fk₁ =
      generate_profiles today count g₂ fk₂ := by
  subst h1 h2 h3 h4
  rfl

/-- Witness for C3 at seed 42, count 5. -/
theorem c3_seeded_runs_identical_witness :
    generate_profiles 2026 5 (seedRandom 42) (seedFaker 42) =
      generate_profiles 2026 5 (seedRandom 42) (seedFaker 42) :=
  c3_seeded_runs_identical 42 2026 5 _ _ _ _ rfl rfl rfl rfl

end GeoProfile
